import Mathlib

/-!
Verification of the pg-embedded instance lifecycle manager.

This file gives a shallow embedding of the lifecycle state machine of
`PostgresInstance` (src/src/postgres.rs), its error constructors
(src/src/error.rs) and the `ConnectionInfo` type (src/src/types.rs), and
proves properties of the embedded operations.

Modelling conventions:
  - The external engine driver (the `postgresql_embedded` crate) is a black
    box; each call into it is represented by an oracle argument of type
    `Except String _` supplying the driver's outcome, and every operation
    additionally returns the list of driver calls it performed.
  - Time (`std::time::Instant` / `Duration`) is modelled as a `Nat` counting
    seconds; `Instant::elapsed` at clock `now` for a timestamp `t` is
    `now - t` (truncated subtraction, matching monotone clocks).
  - Mutex locks are never poisoned in the model (the source treats poisoning
    as an internal error path that normal executions never take).
-/

namespace PgEmbedded

/-- Lifecycle state of a PostgreSQL instance (enum `InstanceState`,
src/src/types.rs). -/
inductive InstanceState where
  | Stopped
  | Starting
  | Running
  | Stopping
deriving DecidableEq, Repr

/-- Connection information structure (`ConnectionInfo`, src/src/types.rs). -/
structure ConnectionInfo where
  host : String
  port : Nat
  username : String
  password : String
  database_name : String
  connection_string : String
deriving DecidableEq, Repr

/-- `ConnectionInfo::new` (src/src/types.rs): builds the full connection
string from the parts. -/
def ConnectionInfo.new (host : String) (port : Nat) (username : String)
    (password : String) (database_name : String) : ConnectionInfo :=
  { host := host, port := port, username := username, password := password,
    database_name := database_name,
    connection_string :=
      "postgresql://" ++ username ++ ":" ++ password ++ "@" ++ host ++ ":"
        ++ toString port ++ "/" ++ database_name }

/-- `ConnectionInfo::safe_connection_string` (src/src/types.rs): connection
string with the password replaced by `***`, for logging. -/
def ConnectionInfo.safe_connection_string (c : ConnectionInfo) : String :=
  "postgresql://" ++ c.username ++ ":***@" ++ c.host ++ ":" ++ toString c.port
    ++ "/" ++ c.database_name

/-- A `napi::Error`: all error constructors in src/src/error.rs produce a
generic-failure status plus a message, so the message characterises the
error. -/
structure NapiError where
  message : String
deriving DecidableEq, Repr

/-- `setup_error` (src/src/error.rs). -/
def setup_error (m : String) : NapiError := ⟨"Setup failed: " ++ m⟩

/-- `start_error` (src/src/error.rs). -/
def start_error (m : String) : NapiError := ⟨"Start failed: " ++ m⟩

/-- `stop_error` (src/src/error.rs). -/
def stop_error (m : String) : NapiError := ⟨"Stop failed: " ++ m⟩

/-- `database_error` (src/src/error.rs): the `DatabaseOperationFailed`
taxonomy kind. -/
def database_error (m : String) : NapiError :=
  ⟨"Database operation failed: " ++ m⟩

/-- `timeout_error` (src/src/error.rs): the `OperationTimedOut` taxonomy
kind. -/
def timeout_error (m : String) : NapiError := ⟨"Operation timeout: " ++ m⟩

/-- `convert_postgresql_error` (src/src/error.rs) followed by the
`From<PgEmbedError> for napi::Error` conversion: a driver error with display
text `e` becomes `InternalError(e)`, displayed as `Internal error: e`. -/
def convert_postgresql_error (e : String) : NapiError :=
  ⟨"Internal error: " ++ e⟩

/-- The fields of `postgresql_embedded::Settings` that the repository reads
or writes: host, port, username, password. The field `data_dir` stands for
the remaining fields of the external struct (data directory, version,
timeout, ...), which the lifecycle code carries around but whose values the
hashed fingerprint must not depend on. -/
structure Settings where
  host : String
  port : Nat
  username : String
  password : String
  data_dir : String
deriving DecidableEq, Repr

/-- The external engine driver handle (`postgresql_embedded::PostgreSQL`).
The only observation the repository makes of it besides issuing calls is
`instance.settings()` (directories and, after start, the actual port), so
the model carries the driver's settings. -/
structure EngineDriver where
  settings : Settings
deriving DecidableEq, Repr

/-- Trace entries recording calls into the external engine driver. -/
inductive DriverCall where
  | setupCall
  | startCall
  | stopCall
  | createDatabaseCall (name : String)
deriving DecidableEq, Repr

/-- Cached connection information with its creation timestamp
(`ConnectionInfoCache`, src/src/postgres.rs). -/
structure ConnectionInfoCache where
  info : ConnectionInfo
  created_at : Nat
deriving DecidableEq, Repr

/-- The instance handle (`PostgresInstance`, src/src/postgres.rs): lazy
driver reference, settings, mutex-guarded state, id, connection cache,
configuration hash, recorded startup duration, and the one-shot cleanup
flag. -/
structure PostgresInstance where
  async_instance : Option EngineDriver
  settings : Settings
  state : InstanceState
  instance_id : String
  connection_cache : Option ConnectionInfoCache
  config_hash : String
  startup_time : Option Nat
  cleaned_up : Bool
deriving DecidableEq, Repr

/-- The result shape of a lifecycle operation: the updated handle, the
returned `napi::Result`, and the trace of engine-driver calls made. -/
abbrev OpResult (α : Type) :=
  PostgresInstance × Except NapiError α × List DriverCall

namespace PostgresInstance

/-- `PostgresInstance::get_state` (src/src/postgres.rs): reads the state
under the lock. -/
def get_state (i : PostgresInstance) : InstanceState := i.state

/-- `PostgresInstance::set_state` (src/src/postgres.rs): unconditional
overwrite of the state under the lock. -/
def set_state (i : PostgresInstance) (s : InstanceState) : PostgresInstance :=
  { i with state := s }

/-- `PostgresInstance::setup` (src/src/postgres.rs): sets state `Starting`,
creates a fresh driver from the current settings and provisions it via the
oracle outcome `driver_setup`; on success stores the driver and returns to
`Stopped`; on failure returns to `Stopped` and leaves `async_instance` as it
was (the freshly created local driver is dropped, not stored). -/
def setup (i : PostgresInstance) (driver_setup : Except String Unit) :
    OpResult Unit :=
  let i := i.set_state .Starting
  let inst : EngineDriver := ⟨i.settings⟩
  match driver_setup with
  | .ok _ =>
      ({ i with async_instance := some inst, state := .Stopped },
        .ok (), [.setupCall])
  | .error e =>
      (i.set_state .Stopped, .error (convert_postgresql_error e), [.setupCall])

/-- `PostgresInstance::start` (src/src/postgres.rs). Oracles: `driver_setup`
is the outcome of the lazy `setup` call if one is made; `driver_start` is
the outcome of `instance.start()`, carrying on success the port found in the
driver's settings afterwards; `elapsed` is the wall-clock duration of the
whole start, recorded as the startup time. -/
def start (i : PostgresInstance) (init : Option Bool)
    (driver_setup : Except String Unit) (driver_start : Except String Nat)
    (elapsed : Nat) : OpResult Unit :=
  match i.get_state with
  | .Running =>
      (i, .error (start_error "PostgreSQL instance is already running"), [])
  | .Starting =>
      (i, .error (start_error "PostgreSQL instance is already starting"), [])
  | _ =>
    let should_init := init.getD true
    let i := i.set_state .Starting
    let setupStep : OpResult Unit :=
      if i.async_instance.isNone && should_init then i.setup driver_setup
      else (i, .ok (), [])
    match setupStep with
    | (i', .error e, calls) => (i', .error e, calls)
    | (i', .ok _, calls) =>
      let i' :=
        if i'.async_instance.isNone then
          { i' with async_instance := some ⟨i'.settings⟩ }
        else i'
      match i'.async_instance with
      | some inst =>
        match driver_start with
        | .ok reported_port =>
            let inst := { inst with
              settings := { inst.settings with port := reported_port } }
            ({ i' with
                async_instance := some inst,
                startup_time := some elapsed,
                settings := { i'.settings with port := reported_port },
                state := .Running },
              .ok (), calls ++ [.startCall])
        | .error e =>
            (i'.set_state .Stopped, .error (convert_postgresql_error e),
              calls ++ [.startCall])
      | none =>
          (i'.set_state .Stopped,
            .error (start_error "PostgreSQL instance not initialized"), calls)

/-- `PostgresInstance::internal_stop` (src/src/postgres.rs): the stop
implementation shared by `stop` (with `is_cleanup = false`) and the cleanup
path (with `is_cleanup = true`). `driver_stop` is the oracle outcome of
`instance.stop()`. -/
def internal_stop (i : PostgresInstance) (is_cleanup : Bool)
    (driver_stop : Except String Unit) : OpResult Unit :=
  match i.get_state with
  | .Stopped =>
      if !is_cleanup then
        (i, .error (stop_error "PostgreSQL instance is already stopped"), [])
      else (i, .ok (), [])
  | .Stopping =>
      if !is_cleanup then
        (i, .error (stop_error "PostgreSQL instance is already stopping"), [])
      else (i, .ok (), [])
  | _ =>
    let i := i.set_state .Stopping
    match i.async_instance with
    | some _ =>
      match driver_stop with
      | .ok _ => (i.set_state .Stopped, .ok (), [.stopCall])
      | .error e =>
          if !is_cleanup then
            (i.set_state .Running, .error (convert_postgresql_error e),
              [.stopCall])
          else (i.set_state .Stopped, .ok (), [.stopCall])
    | none =>
      let i := i.set_state .Stopped
      if !is_cleanup then
        (i, .error (stop_error "PostgreSQL instance not initialized"), [])
      else (i, .ok (), [])

/-- `PostgresInstance::stop` (src/src/postgres.rs): `internal_stop` with the
cleanup flag off. -/
def stop (i : PostgresInstance) (driver_stop : Except String Unit) :
    OpResult Unit :=
  i.internal_stop false driver_stop

/-- `PostgresInstance::create_database` (src/src/postgres.rs): requires
state `Running` and a non-empty name before delegating to the driver. -/
def create_database (i : PostgresInstance) (name : String)
    (driver_create : Except String Unit) : OpResult Unit :=
  if i.get_state ≠ InstanceState.Running then
    (i, .error (database_error "PostgreSQL instance is not running"), [])
  else if name = "" then
    (i, .error (database_error "Database name cannot be empty"), [])
  else
    match i.async_instance with
    | some _ =>
      match driver_create with
      | .ok _ => (i, .ok (), [.createDatabaseCall name])
      | .error e =>
          (i, .error (convert_postgresql_error e), [.createDatabaseCall name])
    | none =>
        (i, .error (database_error "PostgreSQL instance not initialized"), [])

/-- `PostgresInstance::get_connection_info` (src/src/postgres.rs) at clock
`now`: requires `Running`; serves the cached snapshot while it is younger
than 300 seconds, otherwise builds a fresh snapshot from the current
settings (database `postgres`) and stores it with timestamp `now`. -/
def get_connection_info (i : PostgresInstance) (now : Nat) :
    PostgresInstance × Except NapiError ConnectionInfo :=
  match i.get_state with
  | .Running =>
    let cachedFresh : Bool :=
      match i.connection_cache with
      | some cached => decide (now - cached.created_at < 300)
      | none => false
    match i.connection_cache, cachedFresh with
    | some cached, true => (i, .ok cached.info)
    | _, _ =>
      let info := ConnectionInfo.new i.settings.host i.settings.port
        i.settings.username i.settings.password "postgres"
      ({ i with connection_cache := some ⟨info, now⟩ }, .ok info)
  | _ => (i, .error (setup_error "PostgreSQL instance is not running"))

/-- `PostgresInstance::cleanup` (src/src/postgres.rs): one-shot teardown.
If the one-shot flag is already set, returns success immediately. Otherwise
runs the cleanup variant of `internal_stop` (its error, if any, is only
logged), takes and drops the driver reference, clears the connection cache
and the startup time, forces the state to `Stopped` and sets the flag. -/
def cleanup (i : PostgresInstance) (driver_stop : Except String Unit) :
    OpResult Unit :=
  if i.cleaned_up then (i, .ok (), [])
  else
    let stopped := i.internal_stop true driver_stop
    let i := stopped.1
    let i := { i with async_instance := none }
    let i := { i with connection_cache := none }
    let i := { i with startup_time := none }
    let i := (i.set_state .Stopped)
    ({ i with cleaned_up := true }, .ok (), stopped.2.2)

/-- `PostgresInstance::start_with_timeout` (src/src/postgres.rs): races
`start` against a deadline of `timeout_seconds`. `op_time` is how long the
wrapped `start` would take; it completes within the deadline iff
`op_time ≤ timeout_seconds`. `inflight` is the handle as left by the
partially executed `start` at the moment the deadline fires; on timeout the
state is forced to `Stopped` and a timeout error is returned. -/
def start_with_timeout (i : PostgresInstance) (timeout_seconds : Nat)
    (op_time : Nat) (inflight : PostgresInstance)
    (driver_setup : Except String Unit) (driver_start : Except String Nat)
    (elapsed : Nat) : PostgresInstance × Except NapiError Unit :=
  if op_time ≤ timeout_seconds then
    let r := i.start (some true) driver_setup driver_start elapsed
    (r.1, r.2.1)
  else
    (inflight.set_state .Stopped,
      .error (timeout_error ("Start operation timed out after "
        ++ toString timeout_seconds ++ " seconds")))

/-- `PostgresInstance::stop_with_timeout` (src/src/postgres.rs): races
`stop` against a deadline of `timeout_seconds`, with the same race model as
`start_with_timeout`; on timeout the handle is left exactly as the race left
it (no state write) and a timeout error is returned. -/
def stop_with_timeout (i : PostgresInstance) (timeout_seconds : Nat)
    (op_time : Nat) (inflight : PostgresInstance)
    (driver_stop : Except String Unit) :
    PostgresInstance × Except NapiError Unit :=
  if op_time ≤ timeout_seconds then
    let r := i.stop driver_stop
    (r.1, r.2.1)
  else
    (inflight,
      .error (timeout_error ("Stop operation timed out after "
        ++ toString timeout_seconds ++ " seconds")))

end PostgresInstance

/-- Folds a sequence of `cleanup` calls (one driver-stop oracle each) over a
handle, keeping only the handle. -/
def cleanup_many (i : PostgresInstance) (os : List (Except String Unit)) :
    PostgresInstance :=
  os.foldl (fun j o => (j.cleanup o).1) i

/-- Byte stream written by Rust's `Hash` impl for `u16`: two bytes of the
value, little-endian. -/
def hash_write_u16 (n : Nat) : List Nat := [n % 256, n / 256 % 256]

/-- Byte stream written by Rust's `Hash` impl for `String`: the UTF-8 bytes
of the string followed by a terminator byte `0xff`. -/
def hash_write_str (s : String) : List Nat :=
  (s.toUTF8.toList.map (fun b => b.toNat)) ++ [255]

/-- Stand-in for `std::collections::hash_map::DefaultHasher.finish`: the std
hasher is an unspecified but fixed deterministic function from the byte
stream written into it to a 64-bit value; it is modelled as a concrete
64-bit fold, which has exactly the property the code relies on (identical
byte streams give identical 64-bit results). -/
def default_hasher_finish (bytes : List Nat) : Nat :=
  bytes.foldl (fun h b => (h * 31 + b) % 2 ^ 64) 5381

/-- `PostgresInstance::generate_config_hash` (src/src/postgres.rs): feeds
port, username, password and host of the settings, in that order, into a
`DefaultHasher` and formats the 64-bit result as lowercase hex. -/
def PostgresInstance.generate_config_hash (settings : Settings) : String :=
  let stream := hash_write_u16 settings.port
    ++ hash_write_str settings.username
    ++ hash_write_str settings.password
    ++ hash_write_str settings.host
  (Nat.toDigits 16 (default_hasher_finish stream)).asString

/-! ## Helper lemmas -/

/-- `cleanup` always sets the one-shot flag. -/
theorem cleanup_flag_set (i : PostgresInstance) (o : Except String Unit) :
    (i.cleanup o).1.cleaned_up = true := by
  unfold PostgresInstance.cleanup
  by_cases h : i.cleaned_up <;> simp [h]

/-- Once the one-shot flag is set, `cleanup` is an identity that returns
success and makes no driver calls. -/
theorem cleanup_noop_of_flag (i : PostgresInstance) (o : Except String Unit)
    (h : i.cleaned_up = true) : i.cleanup o = (i, .ok (), []) := by
  unfold PostgresInstance.cleanup
  simp [h]

/-- Once the one-shot flag is set, any sequence of further `cleanup` calls
leaves the handle unchanged. -/
theorem cleanup_many_noop_of_flag (os : List (Except String Unit))
    (i : PostgresInstance) (h : i.cleaned_up = true) :
    cleanup_many i os = i := by
  induction os generalizing i with
  | nil => rfl
  | cons o os ih =>
      show cleanup_many (i.cleanup o).1 os = i
      rw [cleanup_noop_of_flag i o h]
      exact ih i h

/-- `cleanup` never fails. -/
theorem cleanup_returns_ok (i : PostgresInstance) (o : Except String Unit) :
    (i.cleanup o).2.1 = .ok () := by
  unfold PostgresInstance.cleanup
  by_cases h : i.cleaned_up <;> simp [h]

/-! ## Claims -/

/-- C1: for every instance handle, calling `cleanup` N ≥ 1 times has the
same observable effect as calling it once: the handle after `1 + os.length`
calls equals the handle after the first call, every call returns success,
and every second and subsequent call returns success immediately while
leaving the whole handle (engine driver reference, connection cache,
startup duration, state) untouched and making no engine-driver calls. -/
theorem cleanup_idempotent (i : PostgresInstance) (o o2 : Except String Unit)
    (os : List (Except String Unit)) :
    cleanup_many i (o :: os) = (i.cleanup o).1 ∧
    (i.cleanup o).1.cleanup o2 = ((i.cleanup o).1, .ok (), []) ∧
    (i.cleanup o).2.1 = .ok () := by
  refine ⟨?_, ?_, cleanup_returns_ok i o⟩
  · show cleanup_many (i.cleanup o).1 os = (i.cleanup o).1
    exact cleanup_many_noop_of_flag os _ (cleanup_flag_set i o)
  · exact cleanup_noop_of_flag _ o2 (cleanup_flag_set i o)

/-- C6: calling `create_database` with the empty string as the name, from
any state, returns a `DatabaseOperationFailed` error (a `database_error`),
leaves the handle unchanged and never invokes the engine driver. -/
theorem create_database_empty_name (i : PostgresInstance)
    (driver_create : Except String Unit) :
    ∃ m, i.create_database "" driver_create
      = (i, .error (database_error m), []) := by
  unfold PostgresInstance.create_database
  by_cases h : i.get_state = InstanceState.Running
  · exact ⟨"Database name cannot be empty", by simp [h]⟩
  · exact ⟨"PostgreSQL instance is not running", by simp [h]⟩

/-- C7 counterexample: on a handle that already holds an engine driver
reference (obtained from an earlier successful `setup`), a failing `setup`
leaves that old reference on the handle, contradicting the claim that after
a failed `setup` no engine driver reference is retained. -/
theorem setup_failure_retains_old_driver_cex :
    ¬ ((PostgresInstance.setup
        ⟨some ⟨⟨"localhost", 5432, "postgres", "postgres", "/tmp/data"⟩⟩,
         ⟨"localhost", 5432, "postgres", "postgres", "/tmp/data"⟩,
         .Stopped, "instance-0", none, "hash-0", none, false⟩
        (.error "init failed")).1.async_instance = none) := by
  simp [PostgresInstance.setup, PostgresInstance.set_state]

/-- C7 (amended): `setup` may be called from any state; on success the
state afterward is `Stopped` and the engine driver built from the current
settings is stored on the handle; on failure the state afterward is
`Stopped` and the handle's engine driver reference is left exactly as it
was before the call (in particular, if no driver was present before, none
is retained). -/
theorem setup_postconditions (i : PostgresInstance) (e : String) :
    (i.setup (.ok ())).1.state = .Stopped ∧
    (i.setup (.ok ())).1.async_instance = some ⟨i.settings⟩ ∧
    (i.setup (.error e)).1.state = .Stopped ∧
    (i.setup (.error e)).1.async_instance = i.async_instance := by
  unfold PostgresInstance.setup PostgresInstance.set_state
  simp

/-- C8: the configuration fingerprint is a deterministic pure function of
the (host, port, username, password) tuple: any two settings that agree on
those four fields (whatever their other fields hold) get identical
fingerprint strings. -/
theorem generate_config_hash_deterministic (s t : Settings)
    (hh : s.host = t.host) (hp : s.port = t.port)
    (hu : s.username = t.username) (hw : s.password = t.password) :
    PostgresInstance.generate_config_hash s
      = PostgresInstance.generate_config_hash t := by
  unfold PostgresInstance.generate_config_hash
  rw [hh, hp, hu, hw]

/-- C8 witness: two settings identical in (host, port, username, password)
but with different data directories get the same fingerprint. -/
theorem generate_config_hash_deterministic_witness :
    PostgresInstance.generate_config_hash
        ⟨"localhost", 5432, "postgres", "pw", "/tmp/a"⟩
      = PostgresInstance.generate_config_hash
        ⟨"localhost", 5432, "postgres", "pw", "/tmp/b"⟩ :=
  generate_config_hash_deterministic _ _ rfl rfl rfl rfl

/-- C10: `safe_connection_string` is determined solely by username, host,
port and database name; hence any two `ConnectionInfo` values that differ
only in the password field give the same output, which therefore never
reveals the password. -/
theorem safe_connection_string_determined (c1 c2 : ConnectionInfo)
    (hu : c1.username = c2.username) (hh : c1.host = c2.host)
    (hp : c1.port = c2.port) (hd : c1.database_name = c2.database_name) :
    c1.safe_connection_string = c2.safe_connection_string := by
  unfold ConnectionInfo.safe_connection_string
  rw [hu, hh, hp, hd]

/-- C2: from every state in which stop is permitted to proceed (neither
`Stopped` nor `Stopping`) with a driver present, if the engine-driver stop
fails then the non-cleanup variant leaves the state `Running` and surfaces
the converted driver error, while the cleanup variant leaves the state
`Stopped` and reports success regardless of the same driver failure. -/
theorem stop_failure_behaviour (i : PostgresInstance) (d : EngineDriver)
    (e : String) (h1 : i.state ≠ .Stopped) (h2 : i.state ≠ .Stopping)
    (hdrv : i.async_instance = some d) :
    (i.internal_stop false (.error e)).1.state = .Running ∧
    (i.internal_stop false (.error e)).2.1
      = .error (convert_postgresql_error e) ∧
    (i.internal_stop true (.error e)).1.state = .Stopped ∧
    (i.internal_stop true (.error e)).2.1 = .ok () := by
  unfold PostgresInstance.internal_stop
  cases hs : i.state <;>
    simp_all [PostgresInstance.get_state, PostgresInstance.set_state]

/-- C2 witness: a running handle with a driver, on a failing driver stop,
reverts to `Running` with the error surfaced (non-cleanup) and is forced to
`Stopped` with success (cleanup variant). -/
theorem stop_failure_behaviour_witness :
    ((PostgresInstance.mk
        (some ⟨⟨"localhost", 5432, "postgres", "postgres", "/tmp/d"⟩⟩)
        ⟨"localhost", 5432, "postgres", "postgres", "/tmp/d"⟩
        .Running "instance-1" none "hash-1" (some 2) false).internal_stop
        false (.error "stop failed")).1.state = .Running ∧
    ((PostgresInstance.mk
        (some ⟨⟨"localhost", 5432, "postgres", "postgres", "/tmp/d"⟩⟩)
        ⟨"localhost", 5432, "postgres", "postgres", "/tmp/d"⟩
        .Running "instance-1" none "hash-1" (some 2) false).internal_stop
        false (.error "stop failed")).2.1
      = .error (convert_postgresql_error "stop failed") ∧
    ((PostgresInstance.mk
        (some ⟨⟨"localhost", 5432, "postgres", "postgres", "/tmp/d"⟩⟩)
        ⟨"localhost", 5432, "postgres", "postgres", "/tmp/d"⟩
        .Running "instance-1" none "hash-1" (some 2) false).internal_stop
        true (.error "stop failed")).1.state = .Stopped ∧
    ((PostgresInstance.mk
        (some ⟨⟨"localhost", 5432, "postgres", "postgres", "/tmp/d"⟩⟩)
        ⟨"localhost", 5432, "postgres", "postgres", "/tmp/d"⟩
        .Running "instance-1" none "hash-1" (some 2) false).internal_stop
        true (.error "stop failed")).2.1 = .ok () :=
  stop_failure_behaviour _ _ "stop failed" (by decide) (by decide) rfl

/-- C3: when the deadline elapses before the wrapped operation completes
(`ts < t1`), `start_with_timeout` forces the state of the in-flight handle
to `Stopped` and returns a timeout error, while `stop_with_timeout` leaves
the in-flight handle exactly as it was and returns a timeout error; when
the wrapped operation completes first (`t2 ≤ ts`), both wrappers return the
wrapped operation's handle and result unchanged. -/
theorem timeout_race_behaviour (i inflight : PostgresInstance)
    (ts t1 t2 : Nat) (dsetup : Except String Unit)
    (dstart : Except String Nat) (elapsed : Nat)
    (dstop : Except String Unit) (hlate : ts < t1) (hdone : t2 ≤ ts) :
    i.start_with_timeout ts t1 inflight dsetup dstart elapsed
      = (inflight.set_state .Stopped,
         .error (timeout_error ("Start operation timed out after "
           ++ toString ts ++ " seconds"))) ∧
    i.stop_with_timeout ts t1 inflight dstop
      = (inflight,
         .error (timeout_error ("Stop operation timed out after "
           ++ toString ts ++ " seconds"))) ∧
    i.start_with_timeout ts t2 inflight dsetup dstart elapsed
      = ((i.start (some true) dsetup dstart elapsed).1,
         (i.start (some true) dsetup dstart elapsed).2.1) ∧
    i.stop_with_timeout ts t2 inflight dstop
      = ((i.stop dstop).1, (i.stop dstop).2.1) := by
  unfold PostgresInstance.start_with_timeout PostgresInstance.stop_with_timeout
  have hns : ¬ (t1 ≤ ts) := by omega
  simp [hns, hdone]

/-- C3 witness: with a one-second deadline, an operation taking two seconds
times out (start forced to `Stopped`, stop left as it was) and an operation
taking one second passes its result through. -/
theorem timeout_race_behaviour_witness :
    ((PostgresInstance.mk none
        ⟨"localhost", 5432, "postgres", "postgres", "/tmp/t"⟩
        .Stopped "instance-2" none "hash-2" none false).start_with_timeout
        1 2 (PostgresInstance.mk none
          ⟨"localhost", 5432, "postgres", "postgres", "/tmp/t"⟩
          .Starting "instance-2" none "hash-2" none false)
        (.ok ()) (.ok 5433) 2
      = ((PostgresInstance.mk none
          ⟨"localhost", 5432, "postgres", "postgres", "/tmp/t"⟩
          .Starting "instance-2" none "hash-2" none false).set_state .Stopped,
         .error (timeout_error ("Start operation timed out after "
           ++ toString 1 ++ " seconds")))) ∧
    ((PostgresInstance.mk none
        ⟨"localhost", 5432, "postgres", "postgres", "/tmp/t"⟩
        .Stopped "instance-2" none "hash-2" none false).stop_with_timeout
        1 2 (PostgresInstance.mk none
          ⟨"localhost", 5432, "postgres", "postgres", "/tmp/t"⟩
          .Starting "instance-2" none "hash-2" none false)
        (.ok ())
      = ((PostgresInstance.mk none
          ⟨"localhost", 5432, "postgres", "postgres", "/tmp/t"⟩
          .Starting "instance-2" none "hash-2" none false),
         .error (timeout_error ("Stop operation timed out after "
           ++ toString 1 ++ " seconds")))) :=
  let i : PostgresInstance := PostgresInstance.mk none
    ⟨"localhost", 5432, "postgres", "postgres", "/tmp/t"⟩
    .Stopped "instance-2" none "hash-2" none false
  let j : PostgresInstance := PostgresInstance.mk none
    ⟨"localhost", 5432, "postgres", "postgres", "/tmp/t"⟩
    .Starting "instance-2" none "hash-2" none false
  have h := timeout_race_behaviour i j 1 2 1 (.ok ()) (.ok 5433) 2 (.ok ())
    (by decide) (by decide)
  ⟨h.1, h.2.1⟩

/-- C4: `start` while `Running` or `Starting` returns an error and leaves
the whole handle unchanged, and non-cleanup `stop` while `Stopped` or
`Stopping` returns an error and leaves the whole handle unchanged; none of
the four illegal calls makes any engine-driver call. -/
theorem illegal_transition_calls (i1 i2 i3 i4 : PostgresInstance)
    (init : Option Bool) (dsetup : Except String Unit)
    (dstart : Except String Nat) (elapsed : Nat)
    (dstop : Except String Unit)
    (h1 : i1.state = .Running) (h2 : i2.state = .Starting)
    (h3 : i3.state = .Stopped) (h4 : i4.state = .Stopping) :
    i1.start init dsetup dstart elapsed
      = (i1, .error (start_error "PostgreSQL instance is already running"),
         []) ∧
    i2.start init dsetup dstart elapsed
      = (i2, .error (start_error "PostgreSQL instance is already starting"),
         []) ∧
    i3.stop dstop
      = (i3, .error (stop_error "PostgreSQL instance is already stopped"),
         []) ∧
    i4.stop dstop
      = (i4, .error (stop_error "PostgreSQL instance is already stopping"),
         []) := by
  unfold PostgresInstance.start PostgresInstance.stop
    PostgresInstance.internal_stop
  simp [PostgresInstance.get_state, h1, h2, h3, h4]

/-- C4 witness: concrete illegal `start` and `stop` calls error out without
touching the handle or the driver. -/
theorem illegal_transition_calls_witness :
    (PostgresInstance.mk none
        ⟨"localhost", 5432, "postgres", "postgres", "/tmp/u"⟩
        .Running "instance-3" none "hash-3" none false).start none (.ok ())
        (.ok 5433) 1
      = ((PostgresInstance.mk none
          ⟨"localhost", 5432, "postgres", "postgres", "/tmp/u"⟩
          .Running "instance-3" none "hash-3" none false),
         .error (start_error "PostgreSQL instance is already running"),
         []) ∧
    (PostgresInstance.mk none
        ⟨"localhost", 5432, "postgres", "postgres", "/tmp/u"⟩
        .Stopped "instance-4" none "hash-4" none false).stop (.ok ())
      = ((PostgresInstance.mk none
          ⟨"localhost", 5432, "postgres", "postgres", "/tmp/u"⟩
          .Stopped "instance-4" none "hash-4" none false),
         .error (stop_error "PostgreSQL instance is already stopped"),
         []) :=
  let r := illegal_transition_calls
    (PostgresInstance.mk none
      ⟨"localhost", 5432, "postgres", "postgres", "/tmp/u"⟩
      .Running "instance-3" none "hash-3" none false)
    (PostgresInstance.mk none
      ⟨"localhost", 5432, "postgres", "postgres", "/tmp/u"⟩
      .Starting "instance-3" none "hash-3" none false)
    (PostgresInstance.mk none
      ⟨"localhost", 5432, "postgres", "postgres", "/tmp/u"⟩
      .Stopped "instance-4" none "hash-4" none false)
    (PostgresInstance.mk none
      ⟨"localhost", 5432, "postgres", "postgres", "/tmp/u"⟩
      .Stopping "instance-4" none "hash-4" none false)
    none (.ok ()) (.ok 5433) 1 (.ok ()) rfl rfl rfl rfl
  ⟨r.1, r.2.2.1⟩

/-- C5: `get_connection_info` errors whenever the state is not `Running`;
when `Running` with a cached snapshot of age 0 or 299 seconds it returns
that identical snapshot and leaves the handle unchanged; at age 301 seconds
(and when no cache exists) it constructs a fresh snapshot from the current
settings, stores it with the current (strictly newer) timestamp and returns
it. -/
theorem connection_info_cache_behaviour (i j k : PostgresInstance)
    (c : ConnectionInfoCache) (now : Nat)
    (hi : i.state ≠ .Running)
    (hj : j.state = .Running) (hjc : j.connection_cache = some c)
    (hk : k.state = .Running) (hkc : k.connection_cache = none) :
    i.get_connection_info now
      = (i, .error (setup_error "PostgreSQL instance is not running")) ∧
    j.get_connection_info c.created_at = (j, .ok c.info) ∧
    j.get_connection_info (c.created_at + 299) = (j, .ok c.info) ∧
    j.get_connection_info (c.created_at + 301)
      = ({ j with connection_cache := some (ConnectionInfoCache.mk
            (ConnectionInfo.new j.settings.host j.settings.port
              j.settings.username j.settings.password "postgres")
            (c.created_at + 301)) },
         .ok (ConnectionInfo.new j.settings.host j.settings.port
            j.settings.username j.settings.password "postgres")) ∧
    c.created_at < c.created_at + 301 ∧
    k.get_connection_info now
      = ({ k with connection_cache := some (ConnectionInfoCache.mk
            (ConnectionInfo.new k.settings.host k.settings.port
              k.settings.username k.settings.password "postgres") now) },
         .ok (ConnectionInfo.new k.settings.host k.settings.port
            k.settings.username k.settings.password "postgres")) := by
  unfold PostgresInstance.get_connection_info
  refine ⟨?_, ?_, ?_, ?_, by omega, ?_⟩
  · cases hs : i.state <;> simp_all [PostgresInstance.get_state]
  · simp [PostgresInstance.get_state, hj, hjc]
  · simp [PostgresInstance.get_state, hj, hjc]
  · simp [PostgresInstance.get_state, hj, hjc]
  · simp [PostgresInstance.get_state, hk, hkc]

/-- C5 witness: a stopping handle errors; a running handle with a cache
created at time 1000 serves the identical snapshot at times 1000 and 1299,
and at time 1301 constructs, stores and returns a fresh snapshot; a running
handle without a cache constructs one. -/
theorem connection_info_cache_behaviour_witness :
    ((PostgresInstance.mk none
        ⟨"localhost", 5432, "postgres", "postgres", "/tmp/v"⟩
        .Stopping "instance-5" none "hash-5" none false).get_connection_info
        1000
      = ((PostgresInstance.mk none
          ⟨"localhost", 5432, "postgres", "postgres", "/tmp/v"⟩
          .Stopping "instance-5" none "hash-5" none false),
         .error (setup_error "PostgreSQL instance is not running"))) ∧
    ((PostgresInstance.mk none
        ⟨"localhost", 5432, "postgres", "postgres", "/tmp/v"⟩
        .Running "instance-6"
        (some ⟨ConnectionInfo.new "localhost" 5432 "postgres" "postgres"
          "postgres", 1000⟩)
        "hash-6" none false).get_connection_info 1000
      = ((PostgresInstance.mk none
          ⟨"localhost", 5432, "postgres", "postgres", "/tmp/v"⟩
          .Running "instance-6"
          (some ⟨ConnectionInfo.new "localhost" 5432 "postgres" "postgres"
            "postgres", 1000⟩)
          "hash-6" none false),
         .ok (ConnectionInfo.new "localhost" 5432 "postgres" "postgres"
           "postgres"))) :=
  let cinfo := ConnectionInfo.new "localhost" 5432 "postgres" "postgres"
    "postgres"
  let i : PostgresInstance := PostgresInstance.mk none
    ⟨"localhost", 5432, "postgres", "postgres", "/tmp/v"⟩
    .Stopping "instance-5" none "hash-5" none false
  let j : PostgresInstance := PostgresInstance.mk none
    ⟨"localhost", 5432, "postgres", "postgres", "/tmp/v"⟩
    .Running "instance-6" (some ⟨cinfo, 1000⟩) "hash-6" none false
  let k : PostgresInstance := PostgresInstance.mk none
    ⟨"localhost", 5432, "postgres", "postgres", "/tmp/v"⟩
    .Running "instance-8" none "hash-8" none false
  have h := connection_info_cache_behaviour i j k ⟨cinfo, 1000⟩ 1000
    (by decide) rfl rfl rfl rfl
  ⟨h.1, h.2.1⟩

/-- C9: whenever `start` succeeds with the driver reporting port `p`, the
handle's settings afterwards are exactly the old settings with the port
overwritten to `p` (host, username, password and the rest unchanged); and
if no connection cache is present, the connection info generated afterwards
is built from the old settings with the driver's actual port `p`. -/
theorem start_updates_port_only (i : PostgresInstance) (init : Option Bool)
    (dsetup : Except String Unit) (p elapsed now : Nat)
    (hok : (i.start init dsetup (.ok p) elapsed).2.1 = .ok ()) :
    (i.start init dsetup (.ok p) elapsed).1.settings
      = { i.settings with port := p } ∧
    (i.connection_cache = none →
      ((i.start init dsetup (.ok p) elapsed).1.get_connection_info now).2
        = .ok (ConnectionInfo.new i.settings.host p i.settings.username
            i.settings.password "postgres")) := by
  unfold PostgresInstance.start at hok ⊢
  unfold PostgresInstance.get_connection_info
  cases hs : i.state <;>
    cases hai : i.async_instance <;>
      cases dsetup <;>
        cases init <;>
          simp_all [PostgresInstance.get_state, PostgresInstance.set_state,
            PostgresInstance.setup, ConnectionInfo.new] <;>
            rename_i b <;> cases b <;> simp_all

/-- C9 witness: a stopped, uninitialized handle started successfully with
the driver reporting port 54321 ends with port 54321 in its settings and
generates connection info carrying that port. -/
theorem start_updates_port_only_witness :
    ((PostgresInstance.mk none
        ⟨"localhost", 5432, "postgres", "postgres", "/tmp/w"⟩
        .Stopped "instance-7" none "hash-7" none false).start none (.ok ())
        (.ok 54321) 3).1.settings
      = { host := "localhost", port := 54321, username := "postgres",
          password := "postgres", data_dir := "/tmp/w" } ∧
    (((PostgresInstance.mk none
        ⟨"localhost", 5432, "postgres", "postgres", "/tmp/w"⟩
        .Stopped "instance-7" none "hash-7" none false).start none (.ok ())
        (.ok 54321) 3).1.get_connection_info 7).2
      = .ok (ConnectionInfo.new "localhost" 54321 "postgres" "postgres"
          "postgres") :=
  let i : PostgresInstance := PostgresInstance.mk none
    ⟨"localhost", 5432, "postgres", "postgres", "/tmp/w"⟩
    .Stopped "instance-7" none "hash-7" none false
  have h := start_updates_port_only i none (.ok ()) 54321 3 7 rfl
  ⟨h.1, h.2 rfl⟩

/-- C10 witness: two connection infos differing only in the password field
give the same safe connection string. -/
theorem safe_connection_string_determined_witness :
    (ConnectionInfo.mk "localhost" 5432 "postgres" "secret-one" "postgres"
        "cs").safe_connection_string
      = (ConnectionInfo.mk "localhost" 5432 "postgres" "secret-two" "postgres"
        "cs").safe_connection_string :=
  safe_connection_string_determined _ _ rfl rfl rfl rfl

end PgEmbedded
